import Mathlib

/-!
Shallow embedding of the `recollect` notes backend
(`src/backend/{main,database,storage,auth}.py`) for checking the
specification's claims.  Stateful code is modelled by explicit state
passing over a `DB` record; machine behaviour of SQL queries is modelled
over Lean lists; fallible operations return `Except`.
-/

namespace Recollect

/-! ### Python / SQL string primitives -/

/-- ASCII lower-casing of a single character, as SQLite's `LIKE` and
Python's `str.lower` apply to ASCII letters. -/
def asciiLower (c : Char) : Char :=
  if 'A' ≤ c ∧ c ≤ 'Z' then Char.ofNat (c.toNat + 32) else c

/-- ASCII lower-casing of a string (models `str.lower()` on ASCII input). -/
def lowerStr (s : String) : String := String.mk (s.data.map asciiLower)

/-- Python `str.strip()` whitespace predicate (ASCII whitespace). -/
def isPySpace (c : Char) : Bool :=
  c == ' ' || c == '\t' || c == '\n' || c == '\r' || c.toNat == 11 || c.toNat == 12

/-- Python `str.strip()`: removes leading and trailing whitespace. -/
def pyStrip (s : String) : String :=
  String.mk (((s.data.dropWhile isPySpace).reverse.dropWhile isPySpace).reverse)

/-- Does `needle` occur as a contiguous sublist of `hay`? -/
def containsSub (needle hay : List Char) : Bool :=
  (hay.tails).any (fun t => needle.isPrefixOf t)

/-- Case-insensitive substring containment (ASCII folding), the reading of
"case-insensitive substring" used by the specification. -/
def ciContains (hay : String) (needle : String) : Bool :=
  containsSub (needle.data.map asciiLower) (hay.data.map asciiLower)

/-- Split a character list at the first occurrence of the (non-empty)
separator: `some (before, after)` when the separator occurs, `none`
otherwise. -/
def breakFirst (sep : List Char) : List Char → Option (List Char × List Char)
  | [] => none
  | c :: t =>
    if sep.isPrefixOf (c :: t) then some ([], (c :: t).drop sep.length)
    else (breakFirst sep t).map (fun p => (c :: p.1, p.2))

/-- `parts[1]` of Python's `s.split(sep)` when `len(parts) > 1`:
the text between the first and second occurrences of `sep` (to the end
of the string when `sep` occurs only once); `none` when `sep` does not
occur. -/
def pySplitSecond (sep s : List Char) : Option (List Char) :=
  match breakFirst sep s with
  | none => none
  | some p =>
    match breakFirst sep p.2 with
    | none => some p.2
    | some q => some q.1

/-- SQLite `LIKE` pattern matching over character lists: `%` matches any
sequence, `_` matches any single character, ASCII letters compare
case-insensitively.  Structural recursion on the pattern; the `%` case
tries every suffix of the subject. -/
def likeM : List Char → List Char → Bool
  | [], s => s.isEmpty
  | '%' :: ps, s => (s.tails).any (fun t => likeM ps t)
  | '_' :: ps, s =>
    match s with
    | [] => false
    | _ :: t => likeM ps t
  | c :: ps, s =>
    match s with
    | [] => false
    | d :: t => (asciiLower c == asciiLower d) && likeM ps t

/-- `column LIKE '%' || q || '%'` for a non-NULL column value. -/
def likePercent (q : String) (col : String) : Bool :=
  likeM ('%' :: (q.data ++ ['%'])) col.data

/-- `column LIKE '%' || q || '%'` for a nullable column: NULL never
matches. -/
def likeOpt (q : String) (col : Option String) : Bool :=
  match col with
  | none => false
  | some s => likePercent q s

/-! ### Data model (tables of `database.py`) -/

/-- Row of the `users` table. -/
structure User where
  user_id : String
  username : String
  password_hash : Option String
  deriving Repr, DecidableEq

/-- Row of the `notes_entries` table.  `created_at`/`updated_at` are
modelled as abstract timestamps (`Nat`). -/
structure Entry where
  id : Nat
  user_id : String
  content : Option String
  title : Option String
  subject : Option String
  entry_date : String
  created_at : Nat
  updated_at : Nat
  deriving Repr, DecidableEq

/-- Row of the `media` table (`entry_id` has `ON DELETE CASCADE`). -/
structure Media where
  id : Nat
  entry_id : Nat
  media_type : String
  file_path : String
  created_at : Nat
  deriving Repr, DecidableEq

/-- Database state: the three tables. -/
structure DB where
  users : List User
  entries : List Entry
  media : List Media
  deriving Repr, DecidableEq

/-- An HTTP error as raised by `HTTPException(status_code, detail)`. -/
structure HErr where
  status : Nat
  detail : String
  deriving Repr, DecidableEq

def entryNotFound : HErr := ⟨404, "Entry not found"⟩
def forbiddenErr : HErr := ⟨403, "Forbidden"⟩
def userNotFound : HErr := ⟨404, "User not found"⟩

/-! ### Ordering relations used by the SQL `ORDER BY` clauses -/

/-- `ORDER BY created_at DESC` comparison on entries. -/
def entRecentLE (a b : Entry) : Prop := b.created_at ≤ a.created_at

instance : DecidableRel entRecentLE := fun a b =>
  inferInstanceAs (Decidable (b.created_at ≤ a.created_at))

instance : IsTotal Entry entRecentLE := ⟨fun a b => Nat.le_total b.created_at a.created_at⟩

instance : IsTrans Entry entRecentLE :=
  ⟨fun _ _ _ h1 h2 => Nat.le_trans h2 h1⟩

/-- `ORDER BY created_at` (ascending) comparison on media rows. -/
def mediaOldLE (a b : Media) : Prop := a.created_at ≤ b.created_at

instance : DecidableRel mediaOldLE := fun a b =>
  inferInstanceAs (Decidable (a.created_at ≤ b.created_at))

instance : IsTotal Media mediaOldLE := ⟨fun a b => Nat.le_total a.created_at b.created_at⟩

instance : IsTrans Media mediaOldLE :=
  ⟨fun _ _ _ h1 h2 => Nat.le_trans h1 h2⟩

/-! ### `database.py`: query layer -/

/-- `get_user_by_id`: `SELECT ... FROM users WHERE user_id = :user_id`. -/
def get_user_by_id (db : DB) (uid : String) : Option User :=
  db.users.find? (fun u => u.user_id == uid)

/-- `create_user`: INSERT into `users`; the UNIQUE constraint on
`username` (case-sensitive, as in SQLite/PostgreSQL) raises a database
error whose message names the constraint.  `freshId` stands for the
generated `uuid4` string. -/
def create_user (freshId username password_hash : String) (db : DB) :
    Except String (User × DB) :=
  if db.users.any (fun u => u.username == username) then
    Except.error "UNIQUE constraint failed: users.username"
  else
    let u : User := ⟨freshId, username, some password_hash⟩
    Except.ok (u, { db with users := db.users ++ [u] })

/-- `is_unique_violation`: lower-cases `str(exc)` and looks for the
unique-constraint markers of SQLite and PostgreSQL. -/
def is_unique_violation (msg : String) : Bool :=
  let m := (lowerStr msg).data
  containsSub "unique constraint".data m ||
    containsSub "duplicate key value violates unique constraint".data m

/-- `get_entry_media`: media rows of an entry, `ORDER BY created_at`. -/
def get_entry_media (db : DB) (eid : Nat) : List Media :=
  List.insertionSort mediaOldLE (db.media.filter (fun m => m.entry_id == eid))

/-- The `media_paths` list that `get_entry`/`get_user_entries` attach. -/
def entry_media_paths (db : DB) (eid : Nat) : List String :=
  (get_entry_media db eid).map (fun m => m.file_path)

/-- `get_entry`: fetch one row by id, plus its `media_paths`. -/
def get_entry (db : DB) (eid : Nat) : Option (Entry × List String) :=
  match db.entries.find? (fun e => e.id == eid) with
  | none => none
  | some e => some (e, entry_media_paths db eid)

/-- `get_entry_owner`: `SELECT id, user_id FROM notes_entries WHERE id = ...`. -/
def get_entry_owner (db : DB) (eid : Nat) : Option (Nat × String) :=
  match db.entries.find? (fun e => e.id == eid) with
  | none => none
  | some e => some (e.id, e.user_id)

/-- When an `UPDATE` provides a new value, take it, otherwise keep the
old column value. -/
def ov (newv oldv : Option String) : Option String :=
  match newv with
  | some v => some v
  | none => oldv

/-- Effect of the UPDATE's SET list on one row: rows with the given id
get the provided columns and a refreshed `updated_at`; other rows are
untouched. -/
def applyUpdate (eid : Nat) (content title subject : Option String) (now : Nat)
    (e : Entry) : Entry :=
  if e.id == eid then
    { e with
      content := ov content e.content
      title := ov title e.title
      subject := ov subject e.subject
      updated_at := now }
  else e

/-- `update_entry`: builds a SET list from the fields that are not
`None`; when the list is non-empty it also sets
`updated_at = CURRENT_TIMESTAMP` (modelled by `now`) and runs the
UPDATE on every row with the given id; with no fields provided no query
runs. -/
def update_entry (eid : Nat) (content title subject : Option String) (now : Nat)
    (db : DB) : DB :=
  if content.isNone && title.isNone && subject.isNone then db
  else { db with entries := db.entries.map (applyUpdate eid content title subject now) }

/-- `delete_entry`: `DELETE FROM notes_entries WHERE id = :entry_id`;
the `ON DELETE CASCADE` on `media.entry_id` removes the media rows. -/
def delete_entry (eid : Nat) (db : DB) : DB :=
  { db with
    entries := db.entries.filter (fun e => !(e.id == eid))
    media := db.media.filter (fun m => !(m.entry_id == eid)) }

/-- The WHERE predicate of `search_entries`:
`content LIKE '%q%' OR title LIKE '%q%'` (SQLite `LIKE` semantics,
NULL columns never match). -/
def entryMatches (q : String) (e : Entry) : Bool :=
  likeOpt q e.content || likeOpt q e.title

/-- `search_entries`: rows of the user matching the LIKE filter,
`ORDER BY created_at DESC`. -/
def search_entries (db : DB) (uid : String) (q : String) : List Entry :=
  List.insertionSort entRecentLE
    (db.entries.filter (fun e => e.user_id == uid && entryMatches q e))

/-- `get_user_entries`: all rows of the user, `ORDER BY created_at DESC`,
each with its `media_paths`. -/
def get_user_entries (db : DB) (uid : String) : List (Entry × List String) :=
  (List.insertionSort entRecentLE (db.entries.filter (fun e => e.user_id == uid))).map
    (fun e => (e, entry_media_paths db e.id))

/-- `get_entries_by_subject`: rows of the user with the given subject,
`ORDER BY created_at DESC`. -/
def get_entries_by_subject (db : DB) (uid subj : String) : List Entry :=
  List.insertionSort entRecentLE
    (db.entries.filter (fun e => e.user_id == uid && e.subject == some subj))

/-- `ORDER BY subject` comparison: SQL NULL sorts before any string;
strings compare with the store's default collation. -/
def subjLE (a b : Option String) : Prop :=
  match a, b with
  | none, _ => True
  | some _, none => False
  | some x, some y => x ≤ y

instance : DecidableRel subjLE := fun a b =>
  match a, b with
  | none, _ => inferInstanceAs (Decidable True)
  | some _, none => inferInstanceAs (Decidable False)
  | some x, some y => inferInstanceAs (Decidable (x ≤ y))

instance : IsTotal (Option String) subjLE :=
  ⟨fun a b =>
    match a, b with
    | none, _ => Or.inl trivial
    | some _, none => Or.inr trivial
    | some x, some y => le_total x y⟩

instance : IsTrans (Option String) subjLE :=
  ⟨fun a b c h1 h2 =>
    match a, b, c, h1, h2 with
    | none, _, _, _, _ => trivial
    | some _, none, _, h1, _ => h1.elim
    | some _, some _, none, _, h2 => h2.elim
    | some _, some _, some _, h1, h2 => le_trans h1 h2⟩

/-- `get_user_subjects`: `SELECT DISTINCT subject ... ORDER BY subject`. -/
def get_user_subjects (db : DB) (uid : String) : List (Option String) :=
  List.insertionSort subjLE
    (((db.entries.filter (fun e => e.user_id == uid)).map (fun e => e.subject)).dedup)

/-- Result row of `get_user_statistics`. -/
structure Stats where
  total_entries : Nat
  total_subjects : Nat
  unique_days : Nat
  total_characters : Nat
  deriving Repr, DecidableEq

/-- `get_user_statistics`: the four aggregates over the user's rows
(`COUNT(DISTINCT col)` ignores NULL; `COALESCE(content,'')`). -/
def get_user_statistics (db : DB) (uid : String) : Stats :=
  let es := db.entries.filter (fun e => e.user_id == uid)
  { total_entries := es.length
    total_subjects := (es.filterMap (fun e => e.subject)).dedup.length
    unique_days := (es.map (fun e => e.entry_date)).dedup.length
    total_characters := (es.map (fun e => ((e.content.getD "").length))).sum }

/-! ### `auth.py` -/

/-- The claim set of a decoded JWT, as read by `get_current_user`
(`payload.get("user_id")`, `payload.get("email")`,
`payload.get("username")`); a missing key is `none`. -/
structure TokenPayload where
  user_id : Option String
  email : Option String
  username : Option String
  deriving Repr, DecidableEq

/-- The principal dict `{"user_id": ..., "email": ...}` returned by
`get_current_user`. -/
structure Principal where
  user_id : String
  email : Option String
  deriving Repr, DecidableEq

def invalidCredentials : HErr := ⟨401, "Invalid authentication credentials"⟩

/-- Python `a or b` on optional strings: `a` unless it is `None` or
empty. -/
def pyOrStr (a b : Option String) : Option String :=
  match a with
  | some s => if s == "" then b else some s
  | none => b

/-- `get_current_user` on the outcome of `jwt.decode`: `none` models a
`JWTError` (bad signature, expired, malformed), in which case
`verify_token` raises 401; otherwise the payload's `user_id` claim is
required. -/
def get_current_user (decoded : Option TokenPayload) : Except HErr Principal :=
  match decoded with
  | none => Except.error invalidCredentials
  | some p =>
    match p.user_id with
    | none => Except.error invalidCredentials
    | some uid => Except.ok ⟨uid, pyOrStr p.email p.username⟩

/-- `hash_password`: bcrypt is opaque to this development; the model
only tracks that hashing is a distinct computation applied to the
password. -/
def hash_password (p : String) : String := "bcrypt$" ++ p

/-! ### `main.py`: signup -/

/-- Observable side effects of the signup handler, in order. -/
inductive Effect where
  | hashPassword : Effect
  | insertUser : String → Effect
  deriving Repr, DecidableEq

/-- Request body of `POST /api/auth/signup`. -/
structure UserSignup where
  username : String
  password : String
  deriving Repr, DecidableEq

/-- Response of signup/login (the JWT string itself is opaque; the model
keeps the claims that `create_access_token` embeds). -/
structure Token where
  user_id : String
  username : String
  deriving Repr, DecidableEq

/-- The `signup` route: rejects short passwords before any other work,
then hashes, then attempts the INSERT; a unique-constraint violation
from the store (recognised by `is_unique_violation`, not a pre-check)
becomes a 400 "Username already exists"; any other store error
propagates.  The third component is the trace of effects that ran. -/
def signup (freshId : String) (u : UserSignup) (db : DB) :
    Except HErr Token × DB × List Effect :=
  if u.password.length < 6 then
    (Except.error ⟨400, "Password must be at least 6 characters"⟩, db, [])
  else
    let ph := hash_password u.password
    let uname := pyStrip u.username
    match create_user freshId uname ph db with
    | Except.error e =>
      if is_unique_violation e then
        (Except.error ⟨400, "Username already exists"⟩, db,
          [Effect.hashPassword, Effect.insertUser uname])
      else
        (Except.error ⟨500, e⟩, db, [Effect.hashPassword, Effect.insertUser uname])
    | Except.ok (usr, db') =>
      (Except.ok ⟨usr.user_id, usr.username⟩, db',
        [Effect.hashPassword, Effect.insertUser uname])

/-! ### `main.py`: ownership-guarded routes

Every route takes the authenticated principal's `user_id` (`cur`) as
resolved by `get_current_user`, and returns its result together with the
database state after the call. -/

/-- `_ensure_user_access`: 403 when the path's user id differs from the
principal's. -/
def ensure_user_access (path_user_id cur : String) : Except HErr Unit :=
  if path_user_id == cur then Except.ok () else Except.error forbiddenErr

/-- Request body of `PUT /api/entries/{id}`. -/
structure EntryUpdate where
  content : Option String
  title : Option String
  subject : Option String
  deriving Repr, DecidableEq

/-- `GET /api/users/{user_id}` (the row without the password hash). -/
def get_user_route (cur uid : String) (db : DB) :
    Except HErr (String × String) × DB :=
  match ensure_user_access uid cur with
  | Except.error e => (Except.error e, db)
  | Except.ok _ =>
    match get_user_by_id db uid with
    | none => (Except.error userNotFound, db)
    | some u => (Except.ok (u.user_id, u.username), db)

/-- `GET /api/users/{user_id}/stats`. -/
def get_user_stats_route (cur uid : String) (db : DB) : Except HErr Stats × DB :=
  match ensure_user_access uid cur with
  | Except.error e => (Except.error e, db)
  | Except.ok _ => (Except.ok (get_user_statistics db uid), db)

/-- `GET /api/users/{user_id}/entries`. -/
def get_user_entries_route (cur uid : String) (db : DB) :
    Except HErr (List (Entry × List String)) × DB :=
  match ensure_user_access uid cur with
  | Except.error e => (Except.error e, db)
  | Except.ok _ => (Except.ok (get_user_entries db uid), db)

/-- `GET /api/users/{user_id}/search?query=...`. -/
def search_entries_route (cur uid q : String) (db : DB) :
    Except HErr (List Entry) × DB :=
  match ensure_user_access uid cur with
  | Except.error e => (Except.error e, db)
  | Except.ok _ => (Except.ok (search_entries db uid q), db)

/-- `GET /api/users/{user_id}/subjects`. -/
def get_subjects_route (cur uid : String) (db : DB) :
    Except HErr (List (Option String)) × DB :=
  match ensure_user_access uid cur with
  | Except.error e => (Except.error e, db)
  | Except.ok _ => (Except.ok (get_user_subjects db uid), db)

/-- `GET /api/entries/{entry_id}`: a missing entry and an entry owned by
someone else both yield the same 404. -/
def get_entry_route (cur : String) (eid : Nat) (db : DB) :
    Except HErr (Entry × List String) × DB :=
  match get_entry db eid with
  | none => (Except.error entryNotFound, db)
  | some (e, paths) =>
    if e.user_id == cur then (Except.ok (e, paths), db)
    else (Except.error entryNotFound, db)

/-- `PUT /api/entries/{entry_id}`: owner check via `get_entry_owner`
(404 on miss or foreign owner), then the partial UPDATE. -/
def update_entry_route (cur : String) (eid : Nat) (u : EntryUpdate) (now : Nat)
    (db : DB) : Except HErr Unit × DB :=
  match get_entry_owner db eid with
  | none => (Except.error entryNotFound, db)
  | some owner =>
    if owner.2 == cur then
      (Except.ok (), update_entry eid u.content u.title u.subject now db)
    else (Except.error entryNotFound, db)

/-! ### `storage.py` -/

/-- Python `os.path.join(a, b)` for the cases arising here: an absolute
`b` replaces `a`; otherwise the two are joined with a single `/`. -/
def os_path_join (a b : String) : String :=
  if b.data.head? == some '/' then b
  else if a.data.getLast? == some '/' then a ++ b
  else if a == "" then b
  else a ++ "/" ++ b

/-- `delete_from_local`: joins the path under the upload root and, when
the file exists, removes it and returns `True`; otherwise no file is
touched and the function returns `False`.  The filesystem is the list of
existing full paths. -/
def delete_from_local (dir : String) (fs : List String) (file_path : String) :
    Bool × List String :=
  let full := os_path_join dir file_path
  if fs.contains full then (true, fs.erase full) else (false, fs)

/-- The public URL returned by `upload_to_cloud`: custom domain
(`R2_PUBLIC_URL`) when configured, else derived from the endpoint and
bucket. -/
def upload_public_url (publicURL : Option String) (endpoint bucket object_name : String) :
    String :=
  match publicURL with
  | some u => u ++ "/" ++ object_name
  | none => endpoint ++ "/" ++ bucket ++ "/" ++ object_name

/-- The key that `delete_from_cloud` passes to `delete_object`: an input
starting with `"http"` is split on `"{bucket}/"` and replaced by
`parts[1]` when the separator occurs; otherwise (and for bare keys) the
input is used as-is. -/
def delete_object_key (bucket : String) (object_name : String) : String :=
  if "http".data.isPrefixOf object_name.data then
    match pySplitSecond (bucket ++ "/").data object_name.data with
    | some k => String.mk k
    | none => object_name
  else object_name

/-- `os.path.splitext(p)[1]`: the extension of the basename, empty when
the basename has no dot after its leading dots. -/
def splitextExt (p : String) : String :=
  let base := (p.data.reverse.takeWhile (fun c => !(c == '/'))).reverse
  let stem := base.dropWhile (fun c => c == '.')
  if stem.contains '.' then
    String.mk ('.' :: (stem.reverse.takeWhile (fun c => !(c == '.'))).reverse)
  else ""

/-! ### `main.py`: upload and delete routes -/

/-- The storage key built by `POST /api/upload/image`: a fresh
`uuid4`-based filename under the *authenticated* caller's id.  The
route declares a `user_id` query parameter but never reads it, which
the unused argument records. -/
def upload_object_name (authUid : String) (client_user_id : Option String)
    (filename uuid : String) : String :=
  let file_ext := splitextExt filename
  let unique_filename := uuid ++ file_ext
  authUid ++ "/" ++ unique_filename

/-- Backend state seen by the delete route: the database plus the blob
store (the set of stored object keys/paths). -/
structure Sys where
  db : DB
  blobs : List String
  deriving Repr, DecidableEq

/-- One best-effort blob release (`delete_from_cloud`/`delete_from_local`):
`ok` says whether the release of a given path succeeds; on failure the
blob stays and the returned flag is ignored by the caller. -/
def releaseBlob (ok : String → Bool) (blobs : List String) (p : String) : List String :=
  if ok p then blobs.erase p else blobs

/-- `DELETE /api/entries/{entry_id}`: fetches the entry (404 on miss or
foreign owner), attempts a storage release for every attached media
path, then deletes the row (cascading the media rows).  The third
component is the list of paths whose release was attempted. -/
def delete_entry_route (ok : String → Bool) (cur : String) (eid : Nat) (sys : Sys) :
    Except HErr Unit × Sys × List String :=
  match get_entry sys.db eid with
  | none => (Except.error entryNotFound, sys, [])
  | some ep =>
    if ep.1.user_id == cur then
      let blobs' := ep.2.foldl (releaseBlob ok) sys.blobs
      (Except.ok (), ⟨delete_entry eid sys.db, blobs'⟩, ep.2)
    else (Except.error entryNotFound, sys, [])

/-! ### Helper lemmas -/

theorem applyUpdate_id (eid : Nat) (c t s : Option String) (now : Nat) (e : Entry) :
    (applyUpdate eid c t s now e).id = e.id := by
  unfold applyUpdate; split <;> rfl

theorem find?_id_map (f : Entry → Entry) (hf : ∀ e, (f e).id = e.id) (eid : Nat) :
    ∀ l : List Entry,
      (l.map f).find? (fun x => x.id == eid) = (l.find? (fun x => x.id == eid)).map f := by
  intro l
  induction l with
  | nil => rfl
  | cons a t ih =>
    cases h : (a.id == eid) <;> simp [List.find?_cons, hf, h, ih]

/-! ### Claims -/

/-- C6: the storage key of an authenticated upload is always
`<authenticated user_id>/<uuid-generated filename>`, and the
client-supplied `user_id` query parameter has no influence on it. -/
theorem upload_key_server_generated (authUid : String) (cid1 cid2 : Option String)
    (filename uuid : String) :
    upload_object_name authUid cid1 filename uuid =
      authUid ++ "/" ++ (uuid ++ splitextExt filename) ∧
    upload_object_name authUid cid1 filename uuid =
      upload_object_name authUid cid2 filename uuid :=
  ⟨rfl, rfl⟩

/-- C7 counterexample: deleting a file that does not exist under the
local root reports `False`, not success. -/
theorem delete_from_local_missing_not_success :
    ¬ ((delete_from_local "uploads" [] "a.png").1 = true) := by decide

/-- C7 (amended): local-storage delete removes an existing file and
returns `True`; for a missing file it changes nothing and returns
`False` (a result the callers ignore). -/
theorem delete_from_local_spec (dir : String) (fs : List String) (p : String) :
    (os_path_join dir p ∈ fs →
      delete_from_local dir fs p = (true, fs.erase (os_path_join dir p))) ∧
    (os_path_join dir p ∉ fs →
      delete_from_local dir fs p = (false, fs)) := by
  constructor <;> intro h <;> simp [delete_from_local, h]

/-- Witness for the amended C7 theorem at concrete inputs. -/
theorem delete_from_local_spec_witness :
    delete_from_local "uploads" ["uploads/a.png"] "a.png" = (true, []) ∧
    delete_from_local "uploads" ["uploads/b.png"] "a.png" = (false, ["uploads/b.png"]) := by
  constructor
  · have h := (delete_from_local_spec "uploads" ["uploads/a.png"] "a.png").1 (by decide)
    rw [h]; decide
  · exact (delete_from_local_spec "uploads" ["uploads/b.png"] "a.png").2 (by decide)

/-- C8: the custom-domain public URL returned by cloud upload is *not*
normalized back to the uploaded key by cloud delete (the URL does not
contain the `"{bucket}/"` separator the code splits on), while the
endpoint-derived URL form is.  With `R2_PUBLIC_URL =
"https://cdn.example.com"` and uploaded key `"u1/f.png"`, the key passed
to `delete_object` is the full URL, not `"u1/f.png"`. -/
theorem cloud_delete_custom_domain_bug :
    delete_object_key "notes-app-uploads"
        (upload_public_url (some "https://cdn.example.com") "https://ep"
          "notes-app-uploads" "u1/f.png") =
      "https://cdn.example.com/u1/f.png" ∧
    "https://cdn.example.com/u1/f.png" ≠ "u1/f.png" ∧
    delete_object_key "notes-app-uploads"
        (upload_public_url none "https://ep" "notes-app-uploads" "u1/f.png") =
      "u1/f.png" := by
  exact ⟨by decide, by decide, by decide⟩

/-- C9: a signup whose password is shorter than 6 characters fails with
a 400 before anything else happens: the state is unchanged and the
effect trace is empty (no hash computed, no insert attempted). -/
theorem signup_short_password (freshId : String) (u : UserSignup) (db : DB)
    (h : u.password.length < 6) :
    signup freshId u db =
      (Except.error ⟨400, "Password must be at least 6 characters"⟩, db, []) := by
  simp [signup, h]

/-- Witness for C9 at a concrete short-password signup. -/
theorem signup_short_password_witness :
    ("abc" : String).length < 6 ∧
    signup "id1" ⟨"alice", "abc"⟩ ⟨[], [], []⟩ =
      (Except.error ⟨400, "Password must be at least 6 characters"⟩, ⟨[], [], []⟩, []) :=
  ⟨by decide, signup_short_password "id1" ⟨"alice", "abc"⟩ ⟨[], [], []⟩ (by decide)⟩

/-- C10: a token that decodes successfully (valid signature, unexpired)
but whose claim set has no `user_id` is rejected with the 401; and the
authentication gate accepts a token only when it decodes and carries a
`user_id` claim. -/
theorem token_requires_user_id (p : TokenPayload) (hp : p.user_id = none)
    (t : Option TokenPayload) (pr : Principal) :
    get_current_user (some p) = Except.error invalidCredentials ∧
    (get_current_user t = Except.ok pr → ∃ q, t = some q ∧ q.user_id = some pr.user_id) := by
  constructor
  · simp [get_current_user, hp]
  · intro h
    cases t with
    | none => simp [get_current_user] at h
    | some q =>
      cases hq : q.user_id with
      | none => simp [get_current_user, hq] at h
      | some uid =>
        simp [get_current_user, hq] at h
        exact ⟨q, rfl, by rw [hq, ← h]⟩

/-- Witness for C10: a signed, unexpired payload with no `user_id` is
rejected; a payload with one is accepted with that id. -/
theorem token_requires_user_id_witness :
    get_current_user (some ⟨none, some "e@x", none⟩) = Except.error invalidCredentials ∧
    (get_current_user (some ⟨some "u1", none, none⟩) = Except.ok ⟨"u1", none⟩ →
      ∃ q, (some ⟨some "u1", none, none⟩ : Option TokenPayload) = some q ∧
        q.user_id = some ("u1" : String)) :=
  token_requires_user_id ⟨none, some "e@x", none⟩ rfl (some ⟨some "u1", none, none⟩) ⟨"u1", none⟩

theorem signup_fresh_ok (freshId : String) (u : UserSignup) (db : DB)
    (hlen : ¬ u.password.length < 6)
    (hfresh : (db.users.any (fun x => x.username == pyStrip u.username)) = false) :
    signup freshId u db =
      (Except.ok ⟨freshId, pyStrip u.username⟩,
        { db with
          users := db.users ++
            [⟨freshId, pyStrip u.username, some (hash_password u.password)⟩] },
        [Effect.hashPassword, Effect.insertUser (pyStrip u.username)]) := by
  simp [signup, hlen, create_user, hfresh]

theorem signup_conflict (freshId : String) (u : UserSignup) (db : DB)
    (hlen : ¬ u.password.length < 6)
    (hdup : (db.users.any (fun x => x.username == pyStrip u.username)) = true) :
    signup freshId u db =
      (Except.error ⟨400, "Username already exists"⟩, db,
        [Effect.hashPassword, Effect.insertUser (pyStrip u.username)]) := by
  have hu : is_unique_violation "UNIQUE constraint failed: users.username" = true := by decide
  simp [signup, hlen, create_user, hdup, hu]

/-- C2 counterexample: two signups whose usernames normalize to the same
value under case-insensitive comparison ("Alice" / "alice") both
succeed — the store's UNIQUE constraint is case-sensitive — and a second
user record is created. -/
theorem signup_case_collision_not_conflict :
    lowerStr (pyStrip "Alice") = lowerStr (pyStrip "alice") ∧
    (signup "id1" ⟨"Alice", "secret1"⟩ ⟨[], [], []⟩).1 = Except.ok ⟨"id1", "Alice"⟩ ∧
    (signup "id2" ⟨"alice", "secret2"⟩
        (signup "id1" ⟨"Alice", "secret1"⟩ ⟨[], [], []⟩).2.1).1 =
      Except.ok ⟨"id2", "alice"⟩ ∧
    ((signup "id2" ⟨"alice", "secret2"⟩
        (signup "id1" ⟨"Alice", "secret1"⟩ ⟨[], [], []⟩).2.1).2.1).users.length = 2 := by
  exact ⟨by decide, rfl, rfl, rfl⟩

/-- C2 (amended): for two signups whose usernames are equal after
whitespace stripping (the store's uniqueness is exact, case-sensitive),
the first succeeds and the second fails with the Conflict error raised
from the store's unique-constraint violation at INSERT time (the trace
shows the insert was attempted, there is no pre-check), and no second
record is created. -/
theorem signup_duplicate_conflict (id1 id2 : String) (u1 u2 : UserSignup) (db : DB)
    (h1 : ¬ u1.password.length < 6) (h2 : ¬ u2.password.length < 6)
    (heq : pyStrip u2.username = pyStrip u1.username)
    (hfresh : ∀ x ∈ db.users, ¬ x.username = pyStrip u1.username) :
    (signup id1 u1 db).1 = Except.ok ⟨id1, pyStrip u1.username⟩ ∧
    (signup id2 u2 (signup id1 u1 db).2.1).1 =
      Except.error ⟨400, "Username already exists"⟩ ∧
    (signup id2 u2 (signup id1 u1 db).2.1).2.1 = (signup id1 u1 db).2.1 ∧
    (signup id2 u2 (signup id1 u1 db).2.1).2.2 =
      [Effect.hashPassword, Effect.insertUser (pyStrip u1.username)] := by
  have hanyf : (db.users.any (fun x => x.username == pyStrip u1.username)) = false := by
    rw [List.any_eq_false]; intro x hx; simpa using hfresh x hx
  have hs1 := signup_fresh_ok id1 u1 db h1 hanyf
  have hdup :
      (((signup id1 u1 db).2.1).users.any (fun x => x.username == pyStrip u2.username))
        = true := by
    rw [hs1, heq]
    simp [List.any_eq_true]
  have hs2 := signup_conflict id2 u2 ((signup id1 u1 db).2.1) h2 hdup
  exact ⟨by rw [hs1], by rw [hs2], by rw [hs2], by rw [hs2, heq]⟩

/-- Witness for the amended C2 theorem: `" alice "` and `"alice"` strip
to the same name; the second signup hits the conflict. -/
theorem signup_duplicate_conflict_witness :
    (signup "id1" ⟨" alice ", "secret1"⟩ ⟨[], [], []⟩).1 =
      Except.ok ⟨"id1", pyStrip " alice "⟩ ∧
    (signup "id2" ⟨"alice", "secret2"⟩
        (signup "id1" ⟨" alice ", "secret1"⟩ ⟨[], [], []⟩).2.1).1 =
      Except.error ⟨400, "Username already exists"⟩ ∧
    (signup "id2" ⟨"alice", "secret2"⟩
        (signup "id1" ⟨" alice ", "secret1"⟩ ⟨[], [], []⟩).2.1).2.1 =
      (signup "id1" ⟨" alice ", "secret1"⟩ ⟨[], [], []⟩).2.1 ∧
    (signup "id2" ⟨"alice", "secret2"⟩
        (signup "id1" ⟨" alice ", "secret1"⟩ ⟨[], [], []⟩).2.1).2.2 =
      [Effect.hashPassword, Effect.insertUser (pyStrip " alice ")] :=
  signup_duplicate_conflict "id1" "id2" ⟨" alice ", "secret1"⟩ ⟨"alice", "secret2"⟩
    ⟨[], [], []⟩ (by decide) (by decide) (by decide) (by simp)

/-- C3 counterexample: a search string containing the SQL wildcard `%`
matches an entry that does not contain it as a substring — the query is
passed into `LIKE '%' || q || '%'` unescaped, so `%`/`_` in the search
string act as wildcards, not literals. -/
theorem search_wildcard_counterexample :
    search_entries ⟨[], [⟨1, "u1", some "xzy", none, some "General", "d1", 10, 10⟩], []⟩
        "u1" "x%y" =
      [⟨1, "u1", some "xzy", none, some "General", "d1", 10, 10⟩] ∧
    ciContains "xzy" "x%y" = false := by
  exact ⟨by decide, by decide⟩

/-- C3 (amended): search returns exactly the user's entries whose
`content` or `title` matches `LIKE '%' || q || '%'` (SQLite semantics:
`%`/`_` wildcards, ASCII-case-insensitive, NULL columns never match) —
which for wildcard-free ASCII queries is case-insensitive substring
containment — ordered by `created_at` descending with no other
ranking. -/
theorem search_entries_spec (db : DB) (uid q : String) :
    (∀ e, e ∈ search_entries db uid q ↔
        e ∈ db.entries ∧ e.user_id = uid ∧ entryMatches q e = true) ∧
    List.Sorted entRecentLE (search_entries db uid q) := by
  constructor
  · intro e
    rw [search_entries, List.mem_insertionSort, List.mem_filter]
    simp [Bool.and_eq_true, beq_iff_eq, and_assoc]
  · exact List.sorted_insertionSort entRecentLE _

/-- Witness for the amended C3 theorem: a matching entry is returned
(via the characterization) and the result is sorted. -/
theorem search_entries_spec_witness :
    (⟨1, "u1", some "abc", none, some "General", "d1", 10, 10⟩ : Entry) ∈
      search_entries ⟨[], [⟨1, "u1", some "abc", none, some "General", "d1", 10, 10⟩], []⟩
        "u1" "AB" ∧
    List.Sorted entRecentLE
      (search_entries ⟨[], [⟨1, "u1", some "abc", none, some "General", "d1", 10, 10⟩], []⟩
        "u1" "AB") :=
  ⟨((search_entries_spec
        ⟨[], [⟨1, "u1", some "abc", none, some "General", "d1", 10, 10⟩], []⟩ "u1" "AB").1
      ⟨1, "u1", some "abc", none, some "General", "d1", 10, 10⟩).mpr
      ⟨by decide, by decide, by decide⟩,
    (search_entries_spec
      ⟨[], [⟨1, "u1", some "abc", none, some "General", "d1", 10, 10⟩], []⟩ "u1" "AB").2⟩

/-- C4: an owner's partial update changes exactly the provided fields,
keeps every other column of the row (id, owner, dates, unprovided
fields), refreshes `updated_at` exactly when at least one field is
provided, and leaves every other row in place. -/
theorem update_entry_partial (cur : String) (eid : Nat) (u : EntryUpdate) (now : Nat)
    (db : DB) (e : Entry)
    (hfind : db.entries.find? (fun x => x.id == eid) = some e)
    (hown : e.user_id = cur) :
    (update_entry_route cur eid u now db).1 = Except.ok () ∧
    ((update_entry_route cur eid u now db).2).entries.find? (fun x => x.id == eid) =
      some { e with
        content := ov u.content e.content
        title := ov u.title e.title
        subject := ov u.subject e.subject
        updated_at :=
          if u.content.isSome || u.title.isSome || u.subject.isSome then now
          else e.updated_at } ∧
    (∀ x ∈ db.entries, x.id ≠ eid →
      x ∈ ((update_entry_route cur eid u now db).2).entries) := by
  have hbeq : (e.user_id == cur) = true := by simp [hown]
  have hid : (e.id == eid) = true := by simpa using List.find?_some hfind
  have hroute : update_entry_route cur eid u now db =
      (Except.ok (), update_entry eid u.content u.title u.subject now db) := by
    simp [update_entry_route, get_entry_owner, hfind, hbeq]
  rw [hroute]
  have hm : ∀ c t s,
      (db.entries.map (applyUpdate eid c t s now)).find? (fun x => x.id == eid) =
        (db.entries.find? (fun x => x.id == eid)).map (applyUpdate eid c t s now) :=
    fun c t s => find?_id_map (applyUpdate eid c t s now) (applyUpdate_id eid c t s now)
      eid db.entries
  refine ⟨rfl, ?_, ?_⟩
  · rcases u with ⟨uc, ut, us⟩
    cases uc <;> cases ut <;> cases us <;>
      simp [update_entry, hm, hfind, applyUpdate, hid, ov]
  · intro x hx hne
    have hne' : (x.id == eid) = false := by simpa using hne
    rcases u with ⟨uc, ut, us⟩
    cases uc <;> cases ut <;> cases us <;>
      simp [update_entry] <;>
      first
        | exact hx
        | exact ⟨x, hx, by simp [applyUpdate, hne']⟩

/-- Witness for C4 at a concrete row: only `title` provided; `content`
and `subject` keep their values, `updated_at` becomes the new time. -/
theorem update_entry_partial_witness :
    (update_entry_route "u1" 1 ⟨none, some "newT", none⟩ 9
        ⟨[], [⟨1, "u1", some "c0", some "t0", some "s0", "d1", 5, 5⟩], []⟩).1 =
      Except.ok () ∧
    ((update_entry_route "u1" 1 ⟨none, some "newT", none⟩ 9
        ⟨[], [⟨1, "u1", some "c0", some "t0", some "s0", "d1", 5, 5⟩], []⟩).2).entries.find?
        (fun x => x.id == 1) =
      some { (⟨1, "u1", some "c0", some "t0", some "s0", "d1", 5, 5⟩ : Entry) with
        content := ov none (some "c0")
        title := ov (some "newT") (some "t0")
        subject := ov none (some "s0")
        updated_at :=
          if (none : Option String).isSome || (some "newT").isSome ||
              (none : Option String).isSome then 9
          else 5 } ∧
    (∀ x ∈ ([⟨1, "u1", some "c0", some "t0", some "s0", "d1", 5, 5⟩] : List Entry),
      x.id ≠ 1 →
        x ∈ ((update_entry_route "u1" 1 ⟨none, some "newT", none⟩ 9
          ⟨[], [⟨1, "u1", some "c0", some "t0", some "s0", "d1", 5, 5⟩], []⟩).2).entries) :=
  update_entry_partial "u1" 1 ⟨none, some "newT", none⟩ 9
    ⟨[], [⟨1, "u1", some "c0", some "t0", some "s0", "d1", 5, 5⟩], []⟩
    ⟨1, "u1", some "c0", some "t0", some "s0", "d1", 5, 5⟩ (by decide) rfl

/-- C5: an owner's entry delete attempts a storage release for exactly
the attached media paths (enumerated from the pre-delete state), the
database delete happens whatever the release outcomes (`ok` is
universally quantified, including the all-fail oracle), the cascade
removes every media row of the entry, and a subsequent fetch of the
entry returns the 404. -/
theorem delete_entry_route_spec (ok : String → Bool) (cur : String) (eid : Nat)
    (sys : Sys) (e : Entry)
    (hfind : sys.db.entries.find? (fun x => x.id == eid) = some e)
    (hown : e.user_id = cur) :
    (delete_entry_route ok cur eid sys).1 = Except.ok () ∧
    (delete_entry_route ok cur eid sys).2.2 = entry_media_paths sys.db eid ∧
    (delete_entry_route ok cur eid sys).2.1.db = delete_entry eid sys.db ∧
    (∀ x ∈ (delete_entry_route ok cur eid sys).2.1.db.entries, x.id ≠ eid) ∧
    (∀ m ∈ (delete_entry_route ok cur eid sys).2.1.db.media, m.entry_id ≠ eid) ∧
    (get_entry_route cur eid (delete_entry_route ok cur eid sys).2.1.db).1 =
      Except.error entryNotFound := by
  have hbeq : (e.user_id == cur) = true := by simp [hown]
  have hroute : delete_entry_route ok cur eid sys =
      (Except.ok (),
        ⟨delete_entry eid sys.db,
          (entry_media_paths sys.db eid).foldl (releaseBlob ok) sys.blobs⟩,
        entry_media_paths sys.db eid) := by
    simp [delete_entry_route, get_entry, hfind, hbeq]
  rw [hroute]
  refine ⟨rfl, rfl, rfl, ?_, ?_, ?_⟩
  · intro x hx
    simp [delete_entry, List.mem_filter] at hx
    exact hx.2
  · intro m hm
    simp [delete_entry, List.mem_filter] at hm
    exact hm.2
  · have hnone : (delete_entry eid sys.db).entries.find? (fun x => x.id == eid) = none := by
      rw [List.find?_eq_none]
      intro x hx
      simp [delete_entry, List.mem_filter] at hx
      simpa using hx.2
    simp [get_entry_route, get_entry, hnone]

/-- Witness for C5: a two-media entry deleted under the all-fail release
oracle; the database rows are gone all the same. -/
theorem delete_entry_route_spec_witness :
    (delete_entry_route (fun _ => false) "u1" 1
        ⟨⟨[], [⟨1, "u1", some "c", none, some "G", "d1", 5, 5⟩],
          [⟨1, 1, "image", "p1", 1⟩, ⟨2, 1, "image", "p2", 2⟩]⟩, ["p1", "p2", "px"]⟩).1 =
      Except.ok () ∧
    (delete_entry_route (fun _ => false) "u1" 1
        ⟨⟨[], [⟨1, "u1", some "c", none, some "G", "d1", 5, 5⟩],
          [⟨1, 1, "image", "p1", 1⟩, ⟨2, 1, "image", "p2", 2⟩]⟩, ["p1", "p2", "px"]⟩).2.2 =
      entry_media_paths
        ⟨[], [⟨1, "u1", some "c", none, some "G", "d1", 5, 5⟩],
          [⟨1, 1, "image", "p1", 1⟩, ⟨2, 1, "image", "p2", 2⟩]⟩ 1 ∧
    (delete_entry_route (fun _ => false) "u1" 1
        ⟨⟨[], [⟨1, "u1", some "c", none, some "G", "d1", 5, 5⟩],
          [⟨1, 1, "image", "p1", 1⟩, ⟨2, 1, "image", "p2", 2⟩]⟩, ["p1", "p2", "px"]⟩).2.1.db =
      delete_entry 1
        ⟨[], [⟨1, "u1", some "c", none, some "G", "d1", 5, 5⟩],
          [⟨1, 1, "image", "p1", 1⟩, ⟨2, 1, "image", "p2", 2⟩]⟩ ∧
    (∀ x ∈ (delete_entry_route (fun _ => false) "u1" 1
        ⟨⟨[], [⟨1, "u1", some "c", none, some "G", "d1", 5, 5⟩],
          [⟨1, 1, "image", "p1", 1⟩, ⟨2, 1, "image", "p2", 2⟩]⟩,
          ["p1", "p2", "px"]⟩).2.1.db.entries, x.id ≠ 1) ∧
    (∀ m ∈ (delete_entry_route (fun _ => false) "u1" 1
        ⟨⟨[], [⟨1, "u1", some "c", none, some "G", "d1", 5, 5⟩],
          [⟨1, 1, "image", "p1", 1⟩, ⟨2, 1, "image", "p2", 2⟩]⟩,
          ["p1", "p2", "px"]⟩).2.1.db.media, m.entry_id ≠ 1) ∧
    (get_entry_route "u1" 1 (delete_entry_route (fun _ => false) "u1" 1
        ⟨⟨[], [⟨1, "u1", some "c", none, some "G", "d1", 5, 5⟩],
          [⟨1, 1, "image", "p1", 1⟩, ⟨2, 1, "image", "p2", 2⟩]⟩,
          ["p1", "p2", "px"]⟩).2.1.db).1 = Except.error entryNotFound :=
  delete_entry_route_spec (fun _ => false) "u1" 1
    ⟨⟨[], [⟨1, "u1", some "c", none, some "G", "d1", 5, 5⟩],
      [⟨1, 1, "image", "p1", 1⟩, ⟨2, 1, "image", "p2", 2⟩]⟩, ["p1", "p2", "px"]⟩
    ⟨1, "u1", some "c", none, some "G", "d1", 5, 5⟩ (by decide) rfl

/-- C1: with principal A and a resource owned by B ≠ A, the entry-scoped
routes answer the masking 404, the user-scoped routes answer 403, and
in every case the stored state is returned unchanged (and no blob
release is attempted on delete). -/
theorem cross_user_isolation (db : DB) (bs : List String) (ok : String → Bool)
    (A B : String) (eid : Nat) (e : Entry) (u : EntryUpdate) (now : Nat) (q : String)
    (hne : A ≠ B)
    (hfind : db.entries.find? (fun x => x.id == eid) = some e)
    (hown : e.user_id = B) :
    get_entry_route A eid db = (Except.error entryNotFound, db) ∧
    update_entry_route A eid u now db = (Except.error entryNotFound, db) ∧
    delete_entry_route ok A eid ⟨db, bs⟩ = (Except.error entryNotFound, ⟨db, bs⟩, []) ∧
    get_user_route A B db = (Except.error forbiddenErr, db) ∧
    get_user_stats_route A B db = (Except.error forbiddenErr, db) ∧
    get_user_entries_route A B db = (Except.error forbiddenErr, db) ∧
    search_entries_route A B q db = (Except.error forbiddenErr, db) ∧
    get_subjects_route A B db = (Except.error forbiddenErr, db) := by
  have hB : (e.user_id == A) = false := by
    rw [hown]; exact beq_eq_false_iff_ne.mpr (fun hBA => hne hBA.symm)
  have hBA : (B == A) = false := beq_eq_false_iff_ne.mpr (fun h => hne h.symm)
  refine ⟨?_, ?_, ?_, ?_, ?_, ?_, ?_, ?_⟩ <;>
    simp [get_entry_route, update_entry_route, delete_entry_route, get_user_route,
      get_user_stats_route, get_user_entries_route, search_entries_route,
      get_subjects_route, ensure_user_access, get_entry, get_entry_owner, hfind, hB, hBA]

/-- Witness for C1: principal "a" against an entry and resources owned
by "b". -/
theorem cross_user_isolation_witness :
    get_entry_route "a" 1 ⟨[], [⟨1, "b", some "c", none, some "G", "d1", 5, 5⟩], []⟩ =
      (Except.error entryNotFound,
        ⟨[], [⟨1, "b", some "c", none, some "G", "d1", 5, 5⟩], []⟩) ∧
    update_entry_route "a" 1 ⟨none, none, none⟩ 0
        ⟨[], [⟨1, "b", some "c", none, some "G", "d1", 5, 5⟩], []⟩ =
      (Except.error entryNotFound,
        ⟨[], [⟨1, "b", some "c", none, some "G", "d1", 5, 5⟩], []⟩) ∧
    delete_entry_route (fun _ => true) "a" 1
        ⟨⟨[], [⟨1, "b", some "c", none, some "G", "d1", 5, 5⟩], []⟩, []⟩ =
      (Except.error entryNotFound,
        ⟨⟨[], [⟨1, "b", some "c", none, some "G", "d1", 5, 5⟩], []⟩, []⟩, []) ∧
    get_user_route "a" "b" ⟨[], [⟨1, "b", some "c", none, some "G", "d1", 5, 5⟩], []⟩ =
      (Except.error forbiddenErr,
        ⟨[], [⟨1, "b", some "c", none, some "G", "d1", 5, 5⟩], []⟩) ∧
    get_user_stats_route "a" "b"
        ⟨[], [⟨1, "b", some "c", none, some "G", "d1", 5, 5⟩], []⟩ =
      (Except.error forbiddenErr,
        ⟨[], [⟨1, "b", some "c", none, some "G", "d1", 5, 5⟩], []⟩) ∧
    get_user_entries_route "a" "b"
        ⟨[], [⟨1, "b", some "c", none, some "G", "d1", 5, 5⟩], []⟩ =
      (Except.error forbiddenErr,
        ⟨[], [⟨1, "b", some "c", none, some "G", "d1", 5, 5⟩], []⟩) ∧
    search_entries_route "a" "b" "zz"
        ⟨[], [⟨1, "b", some "c", none, some "G", "d1", 5, 5⟩], []⟩ =
      (Except.error forbiddenErr,
        ⟨[], [⟨1, "b", some "c", none, some "G", "d1", 5, 5⟩], []⟩) ∧
    get_subjects_route "a" "b"
        ⟨[], [⟨1, "b", some "c", none, some "G", "d1", 5, 5⟩], []⟩ =
      (Except.error forbiddenErr,
        ⟨[], [⟨1, "b", some "c", none, some "G", "d1", 5, 5⟩], []⟩) :=
  cross_user_isolation ⟨[], [⟨1, "b", some "c", none, some "G", "d1", 5, 5⟩], []⟩ []
    (fun _ => true) "a" "b" 1 ⟨1, "b", some "c", none, some "G", "d1", 5, 5⟩
    ⟨none, none, none⟩ 0 "zz" (by decide) rfl rfl

end Recollect
